import Mathlib

/-!
Verification of the order-total and identifier-resolution logic of the
food-delivery backend (`src/main.py`).

The backend is embedded shallowly:

* the Mongo document store becomes an explicit `Store` value carrying the
  three collections (`restaurant`, `menuitem`, `order`) as association
  lists from document keys to documents, plus a counter generating fresh
  store-native identifiers;
* the endpoint handlers `create_menu_item` and `place_order` become pure
  functions from a `Store` and a parsed request body to the resulting
  `Store` and an `Except ApiError` response, mirroring the Python control
  flow line by line (lookups guarded by `ObjectId.is_valid`, the 404
  raise inside the accumulation loop, the single insert at the end);
* Python floats carrying money are modelled as rationals, and
  `round(x, 2)` as round-half-to-even at two decimal places;
* a BSON `ObjectId` is modelled by its numeric value, parsed from the
  24-character hexadecimal string form that `ObjectId.is_valid` accepts.
-/

/-- A character is a hexadecimal digit (`0-9`, `a-f`, `A-F`). -/
def isHexDigit (c : Char) : Bool :=
  ('0' ≤ c && c ≤ '9') || ('a' ≤ c && c ≤ 'f') || ('A' ≤ c && c ≤ 'F')

/-- Numeric value of a hexadecimal digit (0 for non-digits). -/
def hexDigitVal (c : Char) : Nat :=
  if '0' ≤ c && c ≤ '9' then c.toNat - '0'.toNat
  else if 'a' ≤ c && c ≤ 'f' then c.toNat - 'a'.toNat + 10
  else if 'A' ≤ c && c ≤ 'F' then c.toNat - 'A'.toNat + 10
  else 0

/-- `ObjectId.is_valid` on a string: exactly 24 hexadecimal characters. -/
def isValidObjectId (s : String) : Bool :=
  s.data.length == 24 && s.data.all isHexDigit

/-- Numeric value of a hexadecimal string (case-insensitive), the value of
the `ObjectId` that `bson` constructs from it. -/
def hexToNat (s : String) : Nat :=
  s.data.foldl (fun a c => a * 16 + hexDigitVal c) 0

/-- A document key in the store: either a store-native `ObjectId`
(represented by its numeric value) or a plain string key. -/
inductive DocId where
  | oid (v : Nat)
  | strId (s : String)
deriving DecidableEq, Repr

/-- Errors surfaced by the handlers, mirroring the raised
`HTTPException`s: `invalidId` is the 400 "Invalid ID format" of
`to_object_id`; `notFound` is a 404 carrying its detail message. -/
inductive ApiError where
  | invalidId
  | notFound (detail : String)
deriving DecidableEq, Repr

/-- HTTP status code attached to each error. -/
def ApiError.status : ApiError → Nat
  | .invalidId => 400
  | .notFound _ => 404

/-- `to_object_id` (`src/main.py:61`): convert a string to an `ObjectId`,
raising the 400 `invalidId` error when the string is malformed. -/
def to_object_id (s : String) : Except ApiError Nat :=
  if isValidObjectId s then Except.ok (hexToNat s) else Except.error ApiError.invalidId

/-- A stored `menuitem` document.  `price` is optional because the code
reads it with `mi.get("price", 0)`: a document in the collection need not
carry the field. -/
structure MenuItemDoc where
  restaurant_id : String
  title : String
  description : Option String
  price : Option ℚ
  image_url : Option String
  vegetarian : Bool
deriving DecidableEq, Repr

/-- A stored `restaurant` document. -/
structure RestaurantDoc where
  name : String
  cuisine : String
  rating : ℚ
  delivery_time_min : Int
  image_url : Option String
deriving DecidableEq, Repr

/-- Request body `OrderItemIn` (`src/main.py:86`): one order line.  The
schema constrains `quantity` only to be an integer. -/
structure OrderItemIn where
  menu_item_id : String
  quantity : Int
deriving DecidableEq, Repr

/-- Request body `OrderIn` (`src/main.py:91`).  Note that it has no field
for a price or a total. -/
structure OrderIn where
  customer_name : String
  address : String
  restaurant_id : String
  items : List OrderItemIn
deriving DecidableEq, Repr

/-- Request body `MenuItemIn` (`src/main.py:77`). -/
structure MenuItemIn where
  restaurant_id : String
  title : String
  description : Option String
  price : ℚ
  image_url : Option String
  vegetarian : Bool
deriving DecidableEq, Repr

/-- A stored `order` document (`order_doc` in `place_order`). -/
structure OrderDoc where
  customer_name : String
  address : String
  restaurant_id : String
  items : List OrderItemIn
  total : ℚ
  status : String
deriving DecidableEq, Repr

/-- The document store: the three collections used by the handlers, as
association lists from key to document, plus the counter from which
fresh store-native identifiers are generated on insert. -/
structure Store where
  restaurant : List (DocId × RestaurantDoc)
  menuitem : List (DocId × MenuItemDoc)
  order : List (DocId × OrderDoc)
  nextId : Nat
deriving DecidableEq, Repr

/-- `find_one(collection, {"_id": k})`: the first document stored under
key `k`, if any. -/
def findDoc {α : Type} (coll : List (DocId × α)) (k : DocId) : Option α :=
  (coll.find? (fun p => decide (p.1 = k))).map Prod.snd

/-- The key actually used to look a document up from an identifier
string: the `ObjectId` form when the string is a well-formed `ObjectId`,
the raw string otherwise. -/
def lookupKey (s : String) : DocId :=
  if isValidObjectId s then DocId.oid (hexToNat s) else DocId.strId s

/-- The guarded dual-format lookup shared by `create_menu_item`
(`src/main.py:124`) and `place_order` (`src/main.py:136`):
`find_one({"_id": to_object_id(s)}) if ObjectId.is_valid(s) else
find_one({"_id": s})`. -/
def lookupByIdStr {α : Type} (coll : List (DocId × α)) (s : String) :
    Except ApiError (Option α) :=
  if isValidObjectId s then
    (to_object_id s).map (fun v => findDoc coll (DocId.oid v))
  else
    Except.ok (findDoc coll (DocId.strId s))

/-- Round-half-to-even to an integer, the rounding Python's `round`
applies. -/
def roundHalfEven (q : ℚ) : Int :=
  let f := Int.floor q
  let r := q - (f : ℚ)
  if r < 1/2 then f
  else if 1/2 < r then f + 1
  else if f % 2 = 0 then f else f + 1

/-- `round(x, 2)`: round to two decimal places. -/
def round2 (q : ℚ) : ℚ :=
  (roundHalfEven (q * 100) : ℚ) / 100

/-- The accumulation loop of `place_order` (`src/main.py:134-139`): for
each line, resolve the menu item (404 naming the identifier when it does
not resolve) and add `price * quantity` to the running total, the price
read from the stored document with default 0. -/
def computeTotal (st : Store) : List OrderItemIn → ℚ → Except ApiError ℚ
  | [], acc => Except.ok acc
  | item :: rest, acc =>
    match lookupByIdStr st.menuitem item.menu_item_id with
    | Except.error e => Except.error e
    | Except.ok none =>
        Except.error (ApiError.notFound ("Menu item not found: " ++ item.menu_item_id))
    | Except.ok (some mi) =>
        computeTotal st rest (acc + mi.price.getD 0 * (item.quantity : ℚ))

/-- Response body of `place_order`. -/
structure PlaceOrderResp where
  id : DocId
  total : ℚ
  status : String
deriving DecidableEq, Repr

/-- `place_order` (`src/main.py:131-150`): accumulate the total over the
lines, then build the order document, insert it into the `order`
collection under a fresh identifier, and return that identifier with the
rounded total and the fixed status.  A raise inside the loop leaves the
store untouched. -/
def place_order (st : Store) (payload : OrderIn) :
    Store × Except ApiError PlaceOrderResp :=
  match computeTotal st payload.items 0 with
  | Except.error e => (st, Except.error e)
  | Except.ok total =>
    let doc : OrderDoc :=
      { customer_name := payload.customer_name
        address := payload.address
        restaurant_id := payload.restaurant_id
        items := payload.items
        total := round2 total
        status := "placed" }
    let oid := DocId.oid st.nextId
    ({ st with order := st.order ++ [(oid, doc)], nextId := st.nextId + 1 },
     Except.ok { id := oid, total := doc.total, status := doc.status })

/-- The `menuitem` document inserted by `create_menu_item`
(`payload.model_dump()`). -/
def MenuItemIn.toDoc (p : MenuItemIn) : MenuItemDoc :=
  { restaurant_id := p.restaurant_id
    title := p.title
    description := p.description
    price := some p.price
    image_url := p.image_url
    vegetarian := p.vegetarian }

/-- `create_menu_item` (`src/main.py:121-128`): resolve the restaurant
(404 when it does not resolve), then insert the payload as a `menuitem`
document under a fresh identifier and return that identifier. -/
def create_menu_item (st : Store) (payload : MenuItemIn) :
    Store × Except ApiError DocId :=
  match lookupByIdStr st.restaurant payload.restaurant_id with
  | Except.error e => (st, Except.error e)
  | Except.ok none => (st, Except.error (ApiError.notFound "Restaurant not found"))
  | Except.ok (some _) =>
    let mid := DocId.oid st.nextId
    ({ st with menuitem := st.menuitem ++ [(mid, payload.toDoc)], nextId := st.nextId + 1 },
     Except.ok mid)

/-- Specification-side amount a single line contributes: the stored
price (0 when the document is missing a price) times the quantity. -/
def storedLineAmount (st : Store) (it : OrderItemIn) : ℚ :=
  match findDoc st.menuitem (lookupKey it.menu_item_id) with
  | some mi => mi.price.getD 0 * (it.quantity : ℚ)
  | none => 0

/-- Specification-side order total before rounding:
`Σ (menu_item.price × line.quantity)` over the lines. -/
def specOrderTotal (st : Store) (items : List OrderItemIn) : ℚ :=
  (items.map (storedLineAmount st)).sum

/-! ## Helper lemmas -/

/-- The guarded lookup never raises: it always returns the result of
`findDoc` at the selected `lookupKey`. -/
theorem lookupByIdStr_eq {α : Type} (coll : List (DocId × α)) (s : String) :
    lookupByIdStr coll s = Except.ok (findDoc coll (lookupKey s)) := by
  unfold lookupByIdStr lookupKey to_object_id
  by_cases h : isValidObjectId s
  · simp [h, Except.map]
  · simp [h]

/-- When every line resolves, the loop returns the accumulator plus the
specification-side sum. -/
theorem computeTotal_ok (st : Store) (items : List OrderItemIn) (acc : ℚ)
    (h : ∀ it ∈ items, (findDoc st.menuitem (lookupKey it.menu_item_id)).isSome = true) :
    computeTotal st items acc = Except.ok (acc + specOrderTotal st items) := by
  induction items generalizing acc with
  | nil => simp [computeTotal, specOrderTotal]
  | cons it rest ih =>
    have hit := h it (List.mem_cons_self it rest)
    obtain ⟨mi, hmi⟩ := Option.isSome_iff_exists.mp hit
    rw [computeTotal, lookupByIdStr_eq, hmi]
    show computeTotal st rest (acc + mi.price.getD 0 * (it.quantity : ℚ)) = _
    rw [ih _ (fun x hx => h x (List.mem_cons_of_mem _ hx))]
    simp only [specOrderTotal, storedLineAmount, List.map_cons, List.sum_cons, hmi]
    ring_nf

/-- When some line does not resolve, the loop raises 404 naming an
identifier of an unresolvable line. -/
theorem computeTotal_err (st : Store) (items : List OrderItemIn) (acc : ℚ)
    (h : ∃ it ∈ items, findDoc st.menuitem (lookupKey it.menu_item_id) = none) :
    ∃ bad, bad ∈ items.map OrderItemIn.menu_item_id ∧
      findDoc st.menuitem (lookupKey bad) = none ∧
      computeTotal st items acc =
        Except.error (ApiError.notFound ("Menu item not found: " ++ bad)) := by
  induction items generalizing acc with
  | nil => obtain ⟨it, hit, -⟩ := h; exact absurd hit (List.not_mem_nil it)
  | cons it rest ih =>
    rw [computeTotal, lookupByIdStr_eq]
    cases hmi : findDoc st.menuitem (lookupKey it.menu_item_id) with
    | none => exact ⟨it.menu_item_id, by simp, hmi, rfl⟩
    | some mi =>
      have hrest : ∃ x ∈ rest, findDoc st.menuitem (lookupKey x.menu_item_id) = none := by
        obtain ⟨x, hx, hxn⟩ := h
        rcases List.mem_cons.mp hx with heq | hmem
        · subst heq; rw [hmi] at hxn; exact absurd hxn (by simp)
        · exact ⟨x, hmem, hxn⟩
      obtain ⟨bad, hb1, hb2, hb3⟩ :=
        ih (acc + mi.price.getD 0 * (it.quantity : ℚ)) hrest
      exact ⟨bad, by simp [hb1], hb2, hb3⟩

/-- The loop only raises 404 errors. -/
theorem computeTotal_err_notFound (st : Store) (items : List OrderItemIn) (acc : ℚ)
    (e : ApiError) (h : computeTotal st items acc = Except.error e) :
    ∃ d, e = ApiError.notFound d := by
  induction items generalizing acc with
  | nil => simp [computeTotal] at h
  | cons it rest ih =>
    rw [computeTotal, lookupByIdStr_eq] at h
    cases hmi : findDoc st.menuitem (lookupKey it.menu_item_id) with
    | none =>
        rw [hmi] at h
        exact ⟨_, (Except.error.injEq .. ▸ h.symm : e = _)⟩
    | some mi =>
        rw [hmi] at h
        exact ih _ h

/-- The loop reads only the `menuitem` collection. -/
theorem computeTotal_congr (st1 st2 : Store) (hm : st1.menuitem = st2.menuitem)
    (items : List OrderItemIn) (acc : ℚ) :
    computeTotal st1 items acc = computeTotal st2 items acc := by
  induction items generalizing acc with
  | nil => rfl
  | cons it rest ih =>
    rw [computeTotal, computeTotal, hm]
    cases lookupByIdStr st2.menuitem it.menu_item_id with
    | error e => rfl
    | ok o => cases o with
      | none => rfl
      | some mi => exact ih _

/-- Full characterisation of `place_order` on success. -/
theorem place_order_ok (st : Store) (p : OrderIn)
    (h : ∀ it ∈ p.items, (findDoc st.menuitem (lookupKey it.menu_item_id)).isSome = true) :
    place_order st p =
      ({ st with
          order := st.order ++ [(DocId.oid st.nextId,
            { customer_name := p.customer_name, address := p.address,
              restaurant_id := p.restaurant_id, items := p.items,
              total := round2 (specOrderTotal st p.items), status := "placed" })],
          nextId := st.nextId + 1 },
       Except.ok { id := DocId.oid st.nextId,
                   total := round2 (specOrderTotal st p.items), status := "placed" }) := by
  unfold place_order
  rw [computeTotal_ok st p.items 0 h, zero_add]

/-- `place_order` propagates a loop error and leaves the store alone. -/
theorem place_order_err (st : Store) (p : OrderIn) (e : ApiError)
    (h : computeTotal st p.items 0 = Except.error e) :
    place_order st p = (st, Except.error e) := by
  unfold place_order
  rw [h]

/-- `place_order` returns a success only when the loop succeeded, and the
returned total is the rounded loop total. -/
theorem place_order_ok_total (st : Store) (p : OrderIn) (r : PlaceOrderResp)
    (h : (place_order st p).2 = Except.ok r) :
    ∃ t, computeTotal st p.items 0 = Except.ok t ∧ r.total = round2 t := by
  unfold place_order at h
  cases hc : computeTotal st p.items 0 with
  | error e => rw [hc] at h; exact Except.noConfusion h
  | ok t =>
    rw [hc] at h
    refine ⟨t, rfl, ?_⟩
    have h2 : Except.ok (α := PlaceOrderResp)
        ⟨DocId.oid st.nextId, round2 t, "placed"⟩ = Except.ok r := h
    injection h2 with h3
    rw [← h3]

/-! ## Concrete fixtures -/

deriving instance DecidableEq for Except

/-- A stored restaurant, under the plain string key `r1`. -/
def demoRest : RestaurantDoc :=
  { name := "Pasta Place", cuisine := "Italian", rating := 4,
    delivery_time_min := 30, image_url := none }

/-- A stored menu item priced 9.99, under the plain string key `m1`. -/
def demoItem : MenuItemDoc :=
  { restaurant_id := "r1", title := "Gnocchi", description := none,
    price := some (999/100), image_url := none, vegetarian := true }

/-- A small store with one restaurant and one menu item. -/
def demoStore : Store :=
  { restaurant := [(DocId.strId "r1", demoRest)],
    menuitem := [(DocId.strId "m1", demoItem)],
    order := [], nextId := 7 }

/-- A well-formed 24-character hexadecimal identifier string. -/
def hexId : String := "aabbccddeeff001122334455"

/-- A stored menu item with an integer price, used under a store-native
key. -/
def hexItem : MenuItemDoc :=
  { restaurant_id := "r1", title := "Bread", description := none,
    price := some 7, image_url := none, vegetarian := false }

/-- A store whose single menu item sits under the store-native key
encoded by `hexId`. -/
def hexStore : Store :=
  { restaurant := [], menuitem := [(DocId.oid (hexToNat hexId), hexItem)],
    order := [], nextId := 0 }

/-- A stored menu item whose document carries no price field. -/
def npItem : MenuItemDoc :=
  { restaurant_id := "r1", title := "Mystery", description := none,
    price := none, image_url := none, vegetarian := false }

/-- A store whose single menu item has no price field. -/
def npStore : Store :=
  { restaurant := [], menuitem := [(DocId.strId "m0", npItem)],
    order := [], nextId := 3 }

/-! ## Claims -/

/-- C1: for every order request whose line items all resolve to stored
menu items, `place_order` computes the order total as the sum over lines
of the stored menu item price times the line quantity, rounded to 2
decimal places, and this total is both persisted in the order document
and returned. -/
theorem C1_place_order_total (st : Store) (p : OrderIn)
    (h : ∀ it ∈ p.items, (findDoc st.menuitem (lookupKey it.menu_item_id)).isSome = true) :
    (place_order st p).2 =
      Except.ok { id := DocId.oid st.nextId,
                  total := round2 (specOrderTotal st p.items), status := "placed" } ∧
    (place_order st p).1.order =
      st.order ++ [(DocId.oid st.nextId,
        { customer_name := p.customer_name, address := p.address,
          restaurant_id := p.restaurant_id, items := p.items,
          total := round2 (specOrderTotal st p.items), status := "placed" })] := by
  rw [place_order_ok st p h]
  exact ⟨rfl, rfl⟩

/-- Witness for C1 at a concrete store and request. -/
theorem C1_place_order_total_witness :
    (place_order demoStore ⟨"Ann", "1 Way", "r1", [⟨"m1", 2⟩]⟩).2 =
      Except.ok { id := DocId.oid demoStore.nextId,
                  total := round2 (specOrderTotal demoStore [⟨"m1", 2⟩]),
                  status := "placed" } ∧
    (place_order demoStore ⟨"Ann", "1 Way", "r1", [⟨"m1", 2⟩]⟩).1.order =
      demoStore.order ++ [(DocId.oid demoStore.nextId,
        { customer_name := "Ann", address := "1 Way", restaurant_id := "r1",
          items := [⟨"m1", 2⟩],
          total := round2 (specOrderTotal demoStore [⟨"m1", 2⟩]),
          status := "placed" })] :=
  C1_place_order_total demoStore ⟨"Ann", "1 Way", "r1", [⟨"m1", 2⟩]⟩ (by decide)

/-- C2: an order request containing a line whose menu item identifier
does not resolve fails with a 404 naming an offending (unresolvable)
identifier, and the store — every collection — is left exactly as it
was: zero writes on failure. -/
theorem C2_unresolved_line_aborts (st : Store) (p : OrderIn)
    (h : ∃ it ∈ p.items, findDoc st.menuitem (lookupKey it.menu_item_id) = none) :
    (∃ bad, bad ∈ p.items.map OrderItemIn.menu_item_id ∧
        findDoc st.menuitem (lookupKey bad) = none ∧
        (place_order st p).2 =
          Except.error (ApiError.notFound ("Menu item not found: " ++ bad))) ∧
    (place_order st p).1 = st := by
  obtain ⟨bad, hb1, hb2, hb3⟩ := computeTotal_err st p.items 0 h
  rw [place_order_err st p _ hb3]
  exact ⟨⟨bad, hb1, hb2, rfl⟩, rfl⟩

/-- Witness for C2 at a concrete store and request. -/
theorem C2_unresolved_line_aborts_witness :
    (∃ bad, bad ∈ ([⟨"missing", 1⟩] : List OrderItemIn).map OrderItemIn.menu_item_id ∧
        findDoc demoStore.menuitem (lookupKey bad) = none ∧
        (place_order demoStore ⟨"Bo", "2 St", "r1", [⟨"missing", 1⟩]⟩).2 =
          Except.error (ApiError.notFound ("Menu item not found: " ++ bad))) ∧
    (place_order demoStore ⟨"Bo", "2 St", "r1", [⟨"missing", 1⟩]⟩).1 = demoStore :=
  C2_unresolved_line_aborts demoStore ⟨"Bo", "2 St", "r1", [⟨"missing", 1⟩]⟩
    ⟨⟨"missing", 1⟩, by decide, by decide⟩

/-- `roundHalfEven` is the identity on integers. -/
theorem roundHalfEven_intCast (n : Int) : roundHalfEven ((n : ℚ)) = n := by
  simp [roundHalfEven, Int.floor_intCast]

/-- C3: contrary to the claim, `place_order` performs no validation of
the line list: a request with an empty line list, and a request with a
zero quantity, are both accepted — an order document is computed and
persisted in each case (the `OrderItemIn` schema in `src/main.py:86`
carries no `ge=1` bound, unlike the `OrderItem` schema declared in
`src/schemas.py`). -/
theorem C3_no_line_validation :
    (place_order demoStore ⟨"Eve", "3 Ave", "r1", []⟩).2 =
      Except.ok { id := DocId.oid 7, total := 0, status := "placed" } ∧
    (place_order demoStore ⟨"Eve", "3 Ave", "r1", []⟩).1.order =
      [(DocId.oid 7, { customer_name := "Eve", address := "3 Ave", restaurant_id := "r1",
                       items := [], total := 0, status := "placed" })] ∧
    (place_order demoStore ⟨"Eve", "3 Ave", "r1", [⟨"m1", 0⟩]⟩).2 =
      Except.ok { id := DocId.oid 7, total := 0, status := "placed" } ∧
    (place_order demoStore ⟨"Eve", "3 Ave", "r1", [⟨"m1", -2⟩]⟩).2 =
      Except.ok { id := DocId.oid 7, total := -1998/100, status := "placed" } := by
  refine ⟨?_, ?_, ?_, ?_⟩
  · simp [place_order, computeTotal, lookupByIdStr, to_object_id, findDoc, lookupKey,
      isValidObjectId, isHexDigit, demoStore, demoItem, round2, roundHalfEven]
  · simp [place_order, computeTotal, lookupByIdStr, to_object_id, findDoc, lookupKey,
      isValidObjectId, isHexDigit, demoStore, demoItem, round2, roundHalfEven]
  · simp [place_order, computeTotal, lookupByIdStr, to_object_id, findDoc, lookupKey,
      isValidObjectId, isHexDigit, demoStore, demoItem, round2, roundHalfEven]
  · norm_num [place_order, computeTotal, lookupByIdStr, to_object_id, findDoc, lookupKey,
      isValidObjectId, isHexDigit, demoStore, demoItem, round2]
    rw [show ((-1998 : ℚ)) = ((-1998 : Int) : ℚ) by norm_num, roundHalfEven_intCast]
    norm_num

/-- C4, counterexample: the malformed identifier string `abc` (not a
24-character hexadecimal string) does not surface the 400
InvalidIdentifier error: both handlers fall back to the raw-string
lookup and surface the 404 NotFound instead. -/
theorem C4_counterexample :
    isValidObjectId "abc" = false ∧
    (place_order demoStore ⟨"Dee", "4 Blvd", "r1", [⟨"abc", 1⟩]⟩).2 =
      Except.error (ApiError.notFound ("Menu item not found: abc")) ∧
    ApiError.status (ApiError.notFound ("Menu item not found: abc")) = 404 ∧
    (create_menu_item demoStore ⟨"abc", "Tea", none, 2, none, false⟩).2 =
      Except.error (ApiError.notFound "Restaurant not found") ∧
    ApiError.status (ApiError.notFound "Restaurant not found") = 404 := by
  decide

/-- C4, amended: `to_object_id` does raise the 400 InvalidIdentifier
error on every malformed identifier string, but `place_order` and
`create_menu_item` never surface it: they call `to_object_id` only on
strings already validated as well-formed and use malformed strings as
raw lookup keys, so every error they surface is a 404. -/
theorem C4_amended_no_400 :
    (∀ s : String, isValidObjectId s = false →
        to_object_id s = Except.error ApiError.invalidId ∧
        ApiError.status ApiError.invalidId = 400) ∧
    (∀ (st : Store) (p : OrderIn) (e : ApiError),
        (place_order st p).2 = Except.error e → e.status = 404) ∧
    (∀ (st : Store) (p : MenuItemIn) (e : ApiError),
        (create_menu_item st p).2 = Except.error e → e.status = 404) := by
  refine ⟨fun s hs => ⟨by simp [to_object_id, hs], rfl⟩, ?_, ?_⟩
  · intro st p e he
    cases hct : computeTotal st p.items 0 with
    | error e2 =>
      rw [place_order_err st p e2 hct] at he
      obtain ⟨d, hd⟩ := computeTotal_err_notFound st p.items 0 e2 hct
      have he2 : Except.error (α := PlaceOrderResp) e2 = Except.error e := he
      injection he2 with h12
      rw [← h12, hd]
      rfl
    | ok t =>
      unfold place_order at he
      rw [hct] at he
      exact Except.noConfusion he
  · intro st p e he
    unfold create_menu_item at he
    rw [lookupByIdStr_eq] at he
    cases hfd : findDoc st.restaurant (lookupKey p.restaurant_id) with
    | none =>
      rw [hfd] at he
      have he2 : Except.error (α := DocId)
          (ApiError.notFound "Restaurant not found") = Except.error e := he
      injection he2 with h12
      rw [← h12]
      rfl
    | some r =>
      rw [hfd] at he
      exact Except.noConfusion he

/-- Witness for the amended C4 at concrete inputs. -/
theorem C4_amended_no_400_witness :
    (to_object_id "abc" = Except.error ApiError.invalidId ∧
      ApiError.status ApiError.invalidId = 400) ∧
    ApiError.status (ApiError.notFound ("Menu item not found: abc")) = 404 ∧
    ApiError.status (ApiError.notFound "Restaurant not found") = 404 :=
  ⟨C4_amended_no_400.1 "abc" (by decide),
   C4_amended_no_400.2.1 demoStore ⟨"Dee", "4 Blvd", "r1", [⟨"abc", 1⟩]⟩
     (ApiError.notFound ("Menu item not found: abc")) (by decide),
   C4_amended_no_400.2.2 demoStore ⟨"abc", "Tea", none, 2, none, false⟩
     (ApiError.notFound "Restaurant not found") (by decide)⟩

/-- C5: the lookup shared by `place_order` and `create_menu_item` uses
the store-native `ObjectId` form as the lookup key when the identifier
string is a well-formed 24-character hexadecimal `ObjectId`, and the raw
string otherwise; in particular the hexadecimal representation of a
record stored under the native key resolves to that record. -/
theorem C5_dual_format_lookup (s : String) (α : Type) (coll : List (DocId × α)) :
    (isValidObjectId s = true →
        lookupByIdStr coll s = Except.ok (findDoc coll (DocId.oid (hexToNat s)))) ∧
    (isValidObjectId s = false →
        lookupByIdStr coll s = Except.ok (findDoc coll (DocId.strId s))) ∧
    (∀ d : α, isValidObjectId s = true →
        findDoc coll (DocId.oid (hexToNat s)) = some d →
        lookupByIdStr coll s = Except.ok (some d)) := by
  refine ⟨fun h => ?_, fun h => ?_, fun d h hd => ?_⟩
  · rw [lookupByIdStr_eq, lookupKey]; simp [h]
  · rw [lookupByIdStr_eq, lookupKey]; simp [h]
  · rw [lookupByIdStr_eq, lookupKey]; simp [h, hd]

/-- Witness for C5: the native-keyed record resolves through its
hexadecimal string, and a non-hexadecimal string is looked up raw. -/
theorem C5_dual_format_lookup_witness :
    lookupByIdStr hexStore.menuitem hexId = Except.ok (some hexItem) ∧
    lookupByIdStr demoStore.menuitem "m1" =
      Except.ok (findDoc demoStore.menuitem (DocId.strId "m1")) :=
  ⟨(C5_dual_format_lookup hexId MenuItemDoc hexStore.menuitem).2.2 hexItem
     (by decide) (by decide),
   (C5_dual_format_lookup "m1" MenuItemDoc demoStore.menuitem).2.1 (by decide)⟩

/-- C6: `create_menu_item` with an unresolvable `restaurant_id` fails
with the 404 NotFound and leaves the store untouched; with a resolvable
one it appends exactly one `menuitem` document built from the payload
under a fresh identifier, returns that identifier, and touches nothing
else. -/
theorem C6_create_menu_item_spec (st : Store) (p : MenuItemIn) :
    (findDoc st.restaurant (lookupKey p.restaurant_id) = none →
        create_menu_item st p =
          (st, Except.error (ApiError.notFound "Restaurant not found"))) ∧
    (∀ r : RestaurantDoc, findDoc st.restaurant (lookupKey p.restaurant_id) = some r →
        create_menu_item st p =
          ({ st with
              menuitem := st.menuitem ++ [(DocId.oid st.nextId, p.toDoc)],
              nextId := st.nextId + 1 },
           Except.ok (DocId.oid st.nextId))) := by
  constructor
  · intro h
    unfold create_menu_item
    rw [lookupByIdStr_eq, h]
  · intro r h
    unfold create_menu_item
    rw [lookupByIdStr_eq, h]

/-- Witness for C6 at concrete inputs: one unresolvable restaurant, one
resolvable one. -/
theorem C6_create_menu_item_spec_witness :
    create_menu_item demoStore ⟨"nope", "Tea", none, 2, none, false⟩ =
      (demoStore, Except.error (ApiError.notFound "Restaurant not found")) ∧
    create_menu_item demoStore ⟨"r1", "Soup", none, 5, none, false⟩ =
      ({ demoStore with
          menuitem := demoStore.menuitem ++
            [(DocId.oid demoStore.nextId,
              MenuItemIn.toDoc ⟨"r1", "Soup", none, 5, none, false⟩)],
          nextId := demoStore.nextId + 1 },
       Except.ok (DocId.oid demoStore.nextId)) :=
  ⟨(C6_create_menu_item_spec demoStore ⟨"nope", "Tea", none, 2, none, false⟩).1 (by decide),
   (C6_create_menu_item_spec demoStore ⟨"r1", "Soup", none, 5, none, false⟩).2
     demoRest (by decide)⟩

/-- C7: on success `place_order` appends exactly one order document —
carrying the customer name, address, restaurant identifier, the ordered
line sequence from the request, the computed total and the fixed status
`placed` — under a fresh identifier, returns that identifier with the
total and status, and modifies no other collection. -/
theorem C7_success_frame (st : Store) (p : OrderIn)
    (h : ∀ it ∈ p.items, (findDoc st.menuitem (lookupKey it.menu_item_id)).isSome = true) :
    ∃ t : ℚ,
      (place_order st p).2 =
        Except.ok { id := DocId.oid st.nextId, total := t, status := "placed" } ∧
      (place_order st p).1.order = st.order ++ [(DocId.oid st.nextId,
        { customer_name := p.customer_name, address := p.address,
          restaurant_id := p.restaurant_id, items := p.items,
          total := t, status := "placed" })] ∧
      (place_order st p).1.restaurant = st.restaurant ∧
      (place_order st p).1.menuitem = st.menuitem ∧
      (place_order st p).1.nextId = st.nextId + 1 := by
  refine ⟨round2 (specOrderTotal st p.items), ?_⟩
  rw [place_order_ok st p h]
  exact ⟨rfl, rfl, rfl, rfl, rfl⟩

/-- Witness for C7 at a concrete store and request. -/
theorem C7_success_frame_witness :
    ∃ t : ℚ,
      (place_order demoStore ⟨"Fay", "5 Ln", "r1", [⟨"m1", 1⟩]⟩).2 =
        Except.ok { id := DocId.oid demoStore.nextId, total := t, status := "placed" } ∧
      (place_order demoStore ⟨"Fay", "5 Ln", "r1", [⟨"m1", 1⟩]⟩).1.order =
        demoStore.order ++ [(DocId.oid demoStore.nextId,
          { customer_name := "Fay", address := "5 Ln", restaurant_id := "r1",
            items := [⟨"m1", 1⟩], total := t, status := "placed" })] ∧
      (place_order demoStore ⟨"Fay", "5 Ln", "r1", [⟨"m1", 1⟩]⟩).1.restaurant =
        demoStore.restaurant ∧
      (place_order demoStore ⟨"Fay", "5 Ln", "r1", [⟨"m1", 1⟩]⟩).1.menuitem =
        demoStore.menuitem ∧
      (place_order demoStore ⟨"Fay", "5 Ln", "r1", [⟨"m1", 1⟩]⟩).1.nextId =
        demoStore.nextId + 1 :=
  C7_success_frame demoStore ⟨"Fay", "5 Ln", "r1", [⟨"m1", 1⟩]⟩ (by decide)

/-- C8: the computed total depends only on the stored menu item prices
and the requested lines: any two requests with the same lines, against
any two stores with the same `menuitem` collection, yield the same loop
total, and whenever both succeed the returned (and persisted) totals
coincide — the client influences the total only through menu item choice
and quantity (the `OrderIn` schema has no price or total field at
all). -/
theorem C8_total_client_independent (st1 st2 : Store) (p1 p2 : OrderIn)
    (hm : st1.menuitem = st2.menuitem) (hi : p1.items = p2.items) :
    computeTotal st1 p1.items 0 = computeTotal st2 p2.items 0 ∧
    ∀ r1 r2 : PlaceOrderResp,
      (place_order st1 p1).2 = Except.ok r1 → (place_order st2 p2).2 = Except.ok r2 →
        r1.total = r2.total := by
  have hct : computeTotal st1 p1.items 0 = computeTotal st2 p2.items 0 := by
    rw [hi]; exact computeTotal_congr st1 st2 hm p2.items 0
  refine ⟨hct, fun r1 r2 h1 h2 => ?_⟩
  obtain ⟨t1, ht1, hr1⟩ := place_order_ok_total st1 p1 r1 h1
  obtain ⟨t2, ht2, hr2⟩ := place_order_ok_total st2 p2 r2 h2
  rw [hct, ht2] at ht1
  injection ht1 with h12
  rw [hr1, hr2, h12]

/-- A stored menu item with an integer price, shared by the two stores
of the C8 witness. -/
def xItem : MenuItemDoc :=
  { restaurant_id := "rz", title := "Rice", description := none,
    price := some 10, image_url := none, vegetarian := true }

/-- An order document pre-existing in `storeB`. -/
def oldOrderDoc : OrderDoc :=
  { customer_name := "Old", address := "0 St", restaurant_id := "rz",
    items := [], total := 0, status := "placed" }

/-- First store of the C8 witness. -/
def storeA : Store :=
  { restaurant := [(DocId.strId "rz", demoRest)],
    menuitem := [(DocId.strId "x", xItem)], order := [], nextId := 1 }

/-- Second store of the C8 witness: same `menuitem` collection as
`storeA`, different everything else. -/
def storeB : Store :=
  { restaurant := [], menuitem := [(DocId.strId "x", xItem)],
    order := [(DocId.oid 0, oldOrderDoc)], nextId := 5 }

/-- Witness for C8: two stores and two requests that differ in every
client-visible field except the lines produce the same total. -/
theorem C8_total_client_independent_witness :
    computeTotal storeA (⟨"Gil", "6 Ct", "rz", [⟨"x", 2⟩]⟩ : OrderIn).items 0 =
      computeTotal storeB (⟨"Hal", "7 Pl", "zzz", [⟨"x", 2⟩]⟩ : OrderIn).items 0 ∧
    PlaceOrderResp.total ⟨DocId.oid 1, 20, "placed"⟩ =
      PlaceOrderResp.total ⟨DocId.oid 5, 20, "placed"⟩ :=
  ⟨(C8_total_client_independent storeA storeB
      ⟨"Gil", "6 Ct", "rz", [⟨"x", 2⟩]⟩ ⟨"Hal", "7 Pl", "zzz", [⟨"x", 2⟩]⟩ rfl rfl).1,
   (C8_total_client_independent storeA storeB
      ⟨"Gil", "6 Ct", "rz", [⟨"x", 2⟩]⟩ ⟨"Hal", "7 Pl", "zzz", [⟨"x", 2⟩]⟩ rfl rfl).2
     ⟨DocId.oid 1, 20, "placed"⟩ ⟨DocId.oid 5, 20, "placed"⟩
     (by simp [place_order, computeTotal, lookupByIdStr, to_object_id, findDoc, lookupKey,
           isValidObjectId, isHexDigit, storeA, xItem, round2, roundHalfEven]
         norm_num)
     (by simp [place_order, computeTotal, lookupByIdStr, to_object_id, findDoc, lookupKey,
           isValidObjectId, isHexDigit, storeB, xItem, round2, roundHalfEven]
         norm_num)⟩

/-- C9: with the stored menu item priced 9.99, a line of quantity 3
contributes 29.97 to the loop total, and an order of two such lines is
returned with total 59.94 after rounding to 2 decimal places. -/
theorem C9_rounding_example :
    storedLineAmount demoStore ⟨"m1", 3⟩ = 2997/100 ∧
    computeTotal demoStore [⟨"m1", 3⟩] 0 = Except.ok (2997/100) ∧
    (place_order demoStore ⟨"Cara", "9 Rd", "r1", [⟨"m1", 3⟩, ⟨"m1", 3⟩]⟩).2 =
      Except.ok { id := DocId.oid 7, total := 5994/100, status := "placed" } := by
  refine ⟨?_, ?_, ?_⟩ <;>
  · simp [place_order, computeTotal, lookupByIdStr, to_object_id, findDoc, lookupKey,
      isValidObjectId, isHexDigit, demoStore, demoItem, round2, roundHalfEven,
      storedLineAmount]
    norm_num

/-- C10: a line whose menu item document exists but carries no price
field does not make `place_order` fail: the missing price is read as 0,
the line contributes `0 × quantity` to the total, and (when every line
resolves) the order is still persisted. -/
theorem C10_missing_price_is_zero (st : Store) (p : OrderIn)
    (h : ∀ it ∈ p.items, (findDoc st.menuitem (lookupKey it.menu_item_id)).isSome = true)
    (it : OrderItemIn) (hin : it ∈ p.items) (mi : MenuItemDoc)
    (hmi : findDoc st.menuitem (lookupKey it.menu_item_id) = some mi)
    (hnp : mi.price = none) :
    storedLineAmount st it = 0 * (it.quantity : ℚ) ∧
    ∃ r : PlaceOrderResp, (place_order st p).2 = Except.ok r ∧
      (place_order st p).1.order = st.order ++ [(DocId.oid st.nextId,
        { customer_name := p.customer_name, address := p.address,
          restaurant_id := p.restaurant_id, items := p.items,
          total := r.total, status := "placed" })] := by
  constructor
  · simp [storedLineAmount, hmi, hnp]
  · rw [place_order_ok st p h]
    exact ⟨_, rfl, rfl⟩

/-- Witness for C10 at a concrete store whose only menu item document
has no price field. -/
theorem C10_missing_price_is_zero_witness :
    storedLineAmount npStore ⟨"m0", 4⟩ = 0 * ((4 : Int) : ℚ) ∧
    ∃ r : PlaceOrderResp,
      (place_order npStore ⟨"Ned", "8 Rd", "rz", [⟨"m0", 4⟩]⟩).2 = Except.ok r ∧
      (place_order npStore ⟨"Ned", "8 Rd", "rz", [⟨"m0", 4⟩]⟩).1.order =
        npStore.order ++ [(DocId.oid npStore.nextId,
          { customer_name := "Ned", address := "8 Rd", restaurant_id := "rz",
            items := [⟨"m0", 4⟩], total := r.total, status := "placed" })] :=
  C10_missing_price_is_zero npStore ⟨"Ned", "8 Rd", "rz", [⟨"m0", 4⟩]⟩
    (by decide) ⟨"m0", 4⟩ (by decide) npItem (by decide) (by decide)
